import Mathlib

/-!
Verification of the cache_diff derive pipeline.

The repository contains two parallel implementations of the configuration
parser and of the diff-procedure generator:

* the one used by the proc-macro entry point
  (`create_cache_diff_too` in cache_diff_derive/src/lib.rs, built on
  `ParseContainer` in parse_container.rs and `ParseField` in parse_field.rs),
* a second one (`create_cache_diff` in lib.rs, built on `CacheDiffContainer`
  in cache_diff_container.rs and `ParsedField` in cache_diff_field.rs) that
  is not reachable from the entry point.

Both are embedded here.  `syn::Error` values are modelled as nonempty lists
of message strings: `syn::Error::combine` appends a message, so a combined
error is the list of its messages in combination order.  Attribute blocks
are modelled post-lexing as lists of key / optional-value pairs, which is
the information the `syn::parse::Parse` implementations consume.
-/

/-- One `key` or `key = value` item of a `#[cache_diff(...)]` block.
The value is the textual payload (string literal contents, or the rendered
path for function references); the grammar never evaluates it. -/
structure RawAttr where
  key : String
  value : Option String
deriving Repr, DecidableEq

/-- One segment of a `syn::Path` inside a `syn::Type::Path`: its identifier
and whether it carries generic arguments (`segment.arguments` nonempty). -/
structure PathSegment where
  seg : String
  hasArguments : Bool
deriving Repr, DecidableEq

/-- The part of `syn::Type` the pipeline inspects: a path type as its list
of segments, or any other type shape. -/
inductive SynType where
  | path (segments : List PathSegment)
  | other
deriving Repr, DecidableEq

/-- A named struct field as the derive macro sees it: identifier, declared
type, and its flattened `#[cache_diff(...)]` items in source order. -/
structure RawField where
  ident : String
  ty : SynType
  attrs : List RawAttr
deriving Repr, DecidableEq

/-- A struct declaration as the derive macro sees it: identifier,
flattened container-level `#[cache_diff(...)]` items, named fields in
declaration order. -/
structure RawContainer where
  ident : String
  attrs : List RawAttr
  fields : List RawField
deriving Repr, DecidableEq

/-- `is_pathbuf` from parse_field.rs (the copy in cache_diff_field.rs is
identical): true exactly when the type is a path type whose last segment
is the identifier `PathBuf` with no generic arguments. -/
def is_pathbuf : SynType → Bool
  | .path segments =>
    match segments.getLast? with
    | some segment => segment.seg == "PathBuf" && !segment.hasArguments
    | none => false
  | .other => false

/-- The message of `shared::known_attribute` / the unknown-key errors:
keys are rendered backtick-quoted, joined by a comma, in the order the
`KnownAttribute` enum declares them (strum iteration order). -/
def unknownAttrMsg (key : String) (validKeys : List String) : String :=
  "Unknown cache_diff attribute: `" ++ key ++ "`. Must be one of " ++
    String.intercalate ", " (validKeys.map fun k => "`" ++ k ++ "`")

/-- Field-scope `KnownAttribute` variants in declaration order
(parse_field.rs and cache_diff_field.rs declare rename, display, ignore). -/
def fieldKnownKeys : List String := ["rename", "display", "ignore"]

/-- Container-scope `KnownAttribute` variants (parse_container.rs and
cache_diff_container.rs declare only custom). -/
def containerKnownKeys : List String := ["custom"]

/-- The hint `KnownAttribute::parse` (parse_field.rs) combines onto the
unknown-key error when the unknown key is `custom`. -/
def customHintMsg : String :=
  "\nThe cache_diff attribute `custom` is available on the struct, not the field"

/-- First message `shared::attribute_lookup` raises for a repeated key. -/
def dupMsg (key : String) : String :=
  "CacheDiff duplicate attribute: `" ++ key ++ "`"

/-- Second, linked message `shared::attribute_lookup` raises for a
repeated key, pointing at the prior occurrence. -/
def prevMsg (key : String) : String :=
  "previously `" ++ key ++ "` defined here"

/-- A parsed field-scope attribute of parse_field.rs (`ParseAttribute`
there): `ignore` carries the literal reason string, `"default"` when no
value was written. -/
inductive FieldAttr where
  | rename (value : String)
  | display (path : String)
  | ignore (reason : String)
deriving Repr, DecidableEq

/-- `ParseAttribute::parse` of parse_field.rs for one `key (= value)?`
item: dispatch on the key (`KnownAttribute::from_str` is exact string
match), demand a value for `rename` and `display`, make the `ignore`
value optional, and fail on unknown keys with the key list of the field
scope, adding the struct-scope hint as a second combined message when the
key is `custom`. -/
def parseFieldAttr (a : RawAttr) : Except (List String) FieldAttr :=
  if a.key = "rename" then
    match a.value with
    | some v => .ok (.rename v)
    | none => .error ["expected `=`"]
  else if a.key = "display" then
    match a.value with
    | some v => .ok (.display v)
    | none => .error ["expected `=`"]
  else if a.key = "ignore" then
    match a.value with
    | some v => .ok (.ignore v)
    | none => .ok (.ignore "default")
  else
    .error ([unknownAttrMsg a.key fieldKnownKeys] ++
      (if a.key = "custom" then [customHintMsg] else []))

/-- The `HashMap<KnownAttribute, WithSpan<ParseAttribute>>` built by
`shared::attribute_lookup` at field scope: at most one entry per key. -/
structure FieldLookup where
  rename : Option String
  display : Option String
  ignore : Option String
deriving Repr, DecidableEq

/-- One insertion step of `shared::attribute_lookup`: the new occurrence
replaces the old one in the map, and a duplicate pushes the pair of
linked messages onto the error queue. -/
def fieldLookupStep (acc : FieldLookup × List String) (x : FieldAttr) :
    FieldLookup × List String :=
  match x with
  | .rename v =>
    (⟨some v, acc.1.display, acc.1.ignore⟩,
     acc.2 ++ (match acc.1.rename with
       | some _ => [dupMsg "rename", prevMsg "rename"]
       | none => []))
  | .display v =>
    (⟨acc.1.rename, some v, acc.1.ignore⟩,
     acc.2 ++ (match acc.1.display with
       | some _ => [dupMsg "display", prevMsg "display"]
       | none => []))
  | .ignore v =>
    (⟨acc.1.rename, acc.1.display, some v⟩,
     acc.2 ++ (match acc.1.ignore with
       | some _ => [dupMsg "ignore", prevMsg "ignore"]
       | none => []))

/-- `shared::attribute_lookup` at field scope: parse every item in order
(the surrounding `?` stops at the first item that fails to parse), then
detect duplicates, collecting every duplicate pair before failing. -/
def fieldAttributeLookup (attrs : List RawAttr) :
    Except (List String) FieldLookup :=
  match attrs.mapM parseFieldAttr with
  | .error e => .error e
  | .ok parsed =>
    match parsed.foldl fieldLookupStep (⟨none, none, none⟩, []) with
    | (l, []) => .ok l
    | (_, e :: es) => .error (e :: es)

/-- `ParseField` of parse_field.rs: the resolved per-field descriptor of
the pipeline used by the macro entry point.  `display` holds the rendered
path of the chosen display function. -/
structure ParseField where
  ident : String
  name : String
  ignore : Option String
  display : String
deriving Repr, DecidableEq

/-- `ident.to_string().replace("_", " ")` from the field resolvers: the
pattern is the single character underscore and the replacement the single
character space, so the call replaces every underscore character by one
space. -/
def underscoresToSpaces (s : String) : String :=
  String.mk (s.data.map fun c => if c = '_' then ' ' else c)

/-- The type-based display default of `ParseField::from_field` /
`ParsedField::from_field`. -/
def defaultDisplay (ty : SynType) : String :=
  if is_pathbuf ty then "std::path::Path::display" else "std::convert::identity"

/-- `ParseField::from_field` of parse_field.rs: look the attributes up,
default the label to the identifier with underscores replaced by spaces,
default the display function by type, and keep the ignore reason.  Note
it accepts `ignore` combined with `rename` or `display`. -/
def ParseField.from_field (f : RawField) : Except (List String) ParseField :=
  match fieldAttributeLookup f.attrs with
  | .error e => .error e
  | .ok l =>
    .ok { ident := f.ident
          name := l.rename.getD (underscoresToSpaces f.ident)
          ignore := l.ignore
          display := l.display.getD (defaultDisplay f.ty) }

example : ParseField.from_field ⟨"version", .path [⟨"String", false⟩], []⟩ =
    .ok ⟨"version", "version", none, "std::convert::identity"⟩ := by rfl

example : ParseField.from_field
    ⟨"version", .other, [⟨"rename", some "Ruby version"⟩, ⟨"ignore", none⟩]⟩ =
    .ok ⟨"version", "Ruby version", some "default", "std::convert::identity"⟩ := by rfl

example : ParseField.from_field
    ⟨"version", .other, [⟨"rename", some "a"⟩, ⟨"rename", some "b"⟩]⟩ =
    .error [dupMsg "rename", prevMsg "rename"] := by rfl

example : ParseField.from_field ⟨"version", .other, [⟨"custom", some "f"⟩]⟩ =
    .error [unknownAttrMsg "custom" fieldKnownKeys, customHintMsg] := by rfl

/-- `Ignored` of cache_diff_field.rs: why a field is excluded. -/
inductive Ignored where
  | ignoreCustom
  | ignoreOther
deriving Repr, DecidableEq

/-- A parsed field-scope attribute of cache_diff_field.rs
(`ParsedAttribute` there): `ignore` classifies its reason at parse time,
the literal value `"custom"` being the sentinel. -/
inductive DFieldAttr where
  | rename (value : String)
  | display (path : String)
  | ignore (reason : Ignored)
deriving Repr, DecidableEq

/-- `ParsedAttribute::parse` of cache_diff_field.rs.  It differs from
parse_field.rs in two ways: the ignore reason is classified immediately,
and the struct-scope hint for `custom` is appended inline to the single
unknown-key message rather than combined as a second message. -/
def dParseFieldAttr (a : RawAttr) : Except (List String) DFieldAttr :=
  if a.key = "rename" then
    match a.value with
    | some v => .ok (.rename v)
    | none => .error ["expected `=`"]
  else if a.key = "display" then
    match a.value with
    | some v => .ok (.display v)
    | none => .error ["expected `=`"]
  else if a.key = "ignore" then
    match a.value with
    | some v => .ok (.ignore (if v = "custom" then .ignoreCustom else .ignoreOther))
    | none => .ok (.ignore .ignoreOther)
  else
    .error [unknownAttrMsg a.key fieldKnownKeys ++
      (if a.key = "custom" then customHintMsg else "")]

/-- The attribute lookup state of `ParsedField::from_field`. -/
structure DFieldLookup where
  rename : Option String
  display : Option String
  ignore : Option Ignored
deriving Repr, DecidableEq

/-- One insertion step of `shared::attribute_lookup` instantiated at the
cache_diff_field.rs attribute type. -/
def dFieldLookupStep (acc : DFieldLookup × List String) (x : DFieldAttr) :
    DFieldLookup × List String :=
  match x with
  | .rename v =>
    (⟨some v, acc.1.display, acc.1.ignore⟩,
     acc.2 ++ (match acc.1.rename with
       | some _ => [dupMsg "rename", prevMsg "rename"]
       | none => []))
  | .display v =>
    (⟨acc.1.rename, some v, acc.1.ignore⟩,
     acc.2 ++ (match acc.1.display with
       | some _ => [dupMsg "display", prevMsg "display"]
       | none => []))
  | .ignore v =>
    (⟨acc.1.rename, acc.1.display, some v⟩,
     acc.2 ++ (match acc.1.ignore with
       | some _ => [dupMsg "ignore", prevMsg "ignore"]
       | none => []))

/-- `shared::attribute_lookup` for cache_diff_field.rs attributes. -/
def dFieldAttributeLookup (attrs : List RawAttr) :
    Except (List String) DFieldLookup :=
  match attrs.mapM dParseFieldAttr with
  | .error e => .error e
  | .ok parsed =>
    match parsed.foldl dFieldLookupStep (⟨none, none, none⟩, []) with
    | (l, []) => .ok l
    | (_, e :: es) => .error (e :: es)

/-- `ActiveField` of cache_diff_field.rs: a field that participates in
the comparison, with its label and the rendered path of its display
function. -/
structure ActiveField where
  name : String
  display_fn : String
  field_identifier : String
deriving Repr, DecidableEq

/-- `ParsedField` of cache_diff_field.rs: the three field descriptor
kinds. -/
inductive ParsedField where
  | ignoredCustom
  | ignoredOther
  | active (f : ActiveField)
deriving Repr, DecidableEq

/-- The message of the conflicting-attributes error of
`ParsedField::from_field`. -/
def conflictMsg : String :=
  "The cache_diff attribute `ignore` renders other attributes useless, remove additional attributes"

/-- `ParsedField::from_field` of cache_diff_field.rs: an ignored field
may carry no other recognized attribute; otherwise resolve the label and
display defaults exactly as parse_field.rs does. -/
def ParsedField.from_field (f : RawField) : Except (List String) ParsedField :=
  match dFieldAttributeLookup f.attrs with
  | .error e => .error e
  | .ok l =>
    match l.ignore with
    | some ig =>
      if l.display.isSome || l.rename.isSome then
        .error [conflictMsg]
      else
        .ok (match ig with
          | .ignoreCustom => .ignoredCustom
          | .ignoreOther => .ignoredOther)
    | none =>
      .ok (.active
        { name := l.rename.getD (underscoresToSpaces f.ident)
          display_fn := l.display.getD (defaultDisplay f.ty)
          field_identifier := f.ident })

example : ParsedField.from_field
    ⟨"version", .other, [⟨"rename", some "Ruby version"⟩, ⟨"ignore", none⟩]⟩ =
    .error [conflictMsg] := by rfl

example : ParsedField.from_field ⟨"version", .other, [⟨"ignore", some "custom"⟩]⟩ =
    .ok .ignoredCustom := by rfl

example : ParsedField.from_field ⟨"cache_usage_count", .other, []⟩ =
    .ok (.active ⟨"cache usage count", "std::convert::identity", "cache_usage_count"⟩) := by rfl

/-- `ParseAttribute::parse` of parse_container.rs for one container-scope
item: only `custom = <path>` is recognized; the unknown-key message lists
the container scope's single valid key. -/
def parseContainerAttr (a : RawAttr) : Except (List String) String :=
  if a.key = "custom" then
    match a.value with
    | some v => .ok v
    | none => .error ["expected `=`"]
  else
    .error [unknownAttrMsg a.key containerKnownKeys]

/-- `ParseContainer` of parse_container.rs: the resolved container of the
pipeline used by the macro entry point. -/
structure ParseContainer where
  ident : String
  custom : Option String
  fields : List ParseField
deriving Repr, DecidableEq

/-- Message of parse_container.rs when a field is marked
`ignore = "custom"` but the container declares no custom function (the
cache_diff_container.rs copy is textually identical). -/
def missingCustomMsg (field container : String) : String :=
  "field `" ++ field ++ "` on " ++ container ++
    " marked ignored as custom, but no `#[cache_diff(custom = <function>)]` found on `" ++
    container ++ "`"

/-- The no-comparable-fields message of `ParseContainer::from_derive_input`:
the word struct is literal text and the trailing `-d` of the
cache_diff_container.rs variant is absent. -/
def noFieldsMsgLive : String :=
  "No fields to compare for CacheDiff, ensure struct has at least one named field that isn\x27t `cache_diff(ignore)`"

/-- The no-comparable-fields message of `CacheDiffContainer::from_ast`. -/
def noFieldsMsgD : String := noFieldsMsgLive ++ "-d"

/-- The final guard of `ParseContainer::from_derive_input` (lines 60-68):
at least one field must not be ignored. -/
def activeFieldsCheck (ident : String) (custom : Option String)
    (fields : List ParseField) : Except (List String) ParseContainer :=
  if fields.any fun f => f.ignore.isNone then .ok ⟨ident, custom, fields⟩
  else .error [noFieldsMsgLive]

/-- The container-level checks of `ParseContainer::from_derive_input`
(lines 46-68), applied to the parsed custom function and parsed fields:
first the ignored-as-custom check on the first such field, then the
comparable-fields guard. -/
def containerChecks (ident : String) (custom : Option String)
    (fields : List ParseField) : Except (List String) ParseContainer :=
  match fields.find? fun f => f.ignore == some "custom" with
  | some f =>
    if custom.isNone then .error [missingCustomMsg f.ident ident]
    else activeFieldsCheck ident custom fields
  | none => activeFieldsCheck ident custom fields

/-- `ParseContainer::from_derive_input`: parse the container attributes
(`ParseAttribute::from_derive`, which stops at the first item that fails
to parse and keeps the last `custom` value), parse every field, stopping
at the first field whose parse fails (`collect::<Result<Vec<_>, _>>`),
then run the container checks. -/
def ParseContainer.from_derive_input (c : RawContainer) :
    Except (List String) ParseContainer :=
  match c.attrs.mapM parseContainerAttr with
  | .error e => .error e
  | .ok customs =>
    match c.fields.mapM ParseField.from_field with
    | .error e => .error e
    | .ok fields => containerChecks c.ident customs.getLast? fields

example : ParseContainer.from_derive_input ⟨"Metadata", [], [⟨"version", .other, []⟩]⟩ =
    .ok ⟨"Metadata", none, [⟨"version", "version", none, "std::convert::identity"⟩]⟩ := by rfl

example : ParseContainer.from_derive_input ⟨"Metadata", [], []⟩ =
    .error [noFieldsMsgLive] := by rfl

example : ParseContainer.from_derive_input
    ⟨"Metadata", [], [⟨"version", .other, [⟨"ignore", none⟩]⟩]⟩ =
    .error [noFieldsMsgLive] := by rfl

example : ParseContainer.from_derive_input
    ⟨"Metadata", [⟨"custom", some "a"⟩, ⟨"custom", some "b"⟩], [⟨"version", .other, []⟩]⟩ =
    .ok ⟨"Metadata", some "b", [⟨"version", "version", none, "std::convert::identity"⟩]⟩ := by rfl

/-- The container attribute lookup of `CacheDiffContainer::from_ast`:
`shared::attribute_lookup` instantiated at the one-variant container
attribute type, so a repeated `custom` is a duplicate-attribute error and
on success draining the map yields the (single) custom path if any. -/
def containerAttributeLookup (attrs : List RawAttr) :
    Except (List String) (Option String) :=
  match attrs.mapM parseContainerAttr with
  | .error e => .error e
  | .ok parsed =>
    match parsed.foldl
        (fun acc v =>
          (some v,
           acc.2 ++ (match acc.1 with
             | some _ => [dupMsg "custom", prevMsg "custom"]
             | none => [])))
        ((none : Option String), ([] : List String)) with
    | (l, []) => .ok l
    | (_, e :: es) => .error (e :: es)

/-- `CacheDiffContainer` of cache_diff_container.rs (the generics
information, unused by every claim, is not carried). -/
structure CacheDiffContainer where
  identifier : String
  custom : Option String
  fields : List ActiveField
deriving Repr, DecidableEq

/-- The error-queue and custom state `CacheDiffContainer::from_ast` holds
after looking up the container attributes: on a lookup error the messages
are queued and the custom function stays absent. -/
def containerAttrState (attrs : List RawAttr) : List String × Option String :=
  match containerAttributeLookup attrs with
  | .ok l => ([], l)
  | .error e => (e, none)

/-- One iteration of the field loop of `CacheDiffContainer::from_ast`:
an ignored-as-custom field with no container custom function queues the
missing-custom-hook error, an active field is appended in order, and a
field resolution error queues all of its messages; the loop never stops
early. -/
def fromAstStep (ident : String) (custom : Option String)
    (acc : List String × List ActiveField) (f : RawField) :
    List String × List ActiveField :=
  match ParsedField.from_field f with
  | .ok .ignoredCustom =>
    (acc.1 ++ (if custom.isNone then [missingCustomMsg f.ident ident] else []), acc.2)
  | .ok .ignoredOther => acc
  | .ok (.active a) => (acc.1, acc.2 ++ [a])
  | .error e => (acc.1 ++ e, acc.2)

/-- The tail of `CacheDiffContainer::from_ast` after the field loop:
fail with the whole error queue when it is nonempty, then fail when no
field is active, and otherwise assemble the container with the active
fields in declaration order. -/
def rollupResult (ident : String) (custom : Option String)
    (res : List String × List ActiveField) : Except (List String) CacheDiffContainer :=
  match res.1 with
  | e :: es => .error (e :: es)
  | [] =>
    match res.2 with
    | [] => .error [noFieldsMsgD]
    | a :: rest => .ok ⟨ident, custom, a :: rest⟩

/-- `CacheDiffContainer::from_ast` of cache_diff_container.rs: collect
the container attribute errors and every per-field error into one queue,
never stopping at the first failing field, then finish with
`rollupResult`. -/
def CacheDiffContainer.from_ast (c : RawContainer) :
    Except (List String) CacheDiffContainer :=
  rollupResult c.ident (containerAttrState c.attrs).2
    (c.fields.foldl (fromAstStep c.ident (containerAttrState c.attrs).2)
      ((containerAttrState c.attrs).1, []))

example : CacheDiffContainer.from_ast ⟨"Metadata", [], [⟨"version", .other, []⟩]⟩ =
    .ok ⟨"Metadata", none, [⟨"version", "std::convert::identity", "version"⟩]⟩ := by rfl

example : CacheDiffContainer.from_ast ⟨"Metadata", [], []⟩ =
    .error [noFieldsMsgD] := by rfl

example : CacheDiffContainer.from_ast
    ⟨"Metadata", [⟨"custom", some "a"⟩, ⟨"custom", some "b"⟩], [⟨"version", .other, []⟩]⟩ =
    .error [dupMsg "custom", prevMsg "custom"] := by rfl

example : CacheDiffContainer.from_ast
    ⟨"Metadata", [⟨"custom", some "my_function"⟩],
     [⟨"version", .other, [⟨"unknown", none⟩]⟩, ⟨"architecture", .other, [⟨"unknown", none⟩]⟩]⟩ =
    .error [unknownAttrMsg "unknown" fieldKnownKeys,
            unknownAttrMsg "unknown" fieldKnownKeys] := by rfl

/-- `CacheDiff::fmt_value` with the default feature set
(cache_diff/src/lib.rs lines 249-253): wrap the displayed value in
backticks. -/
def fmt_value (s : String) : String := "`" ++ s ++ "`"

/-- Runtime meaning of one comparison emitted by `create_cache_diff_too`:
the resolved field with its display path already bound to a function, the
struct instances being maps from field identifier to field value. -/
structure DiffField (α : Type) where
  ident : String
  name : String
  ignore : Option String
  display : α → String

/-- The string one comparison of `create_cache_diff_too` pushes when the
current and old values differ: label, then the wrapped displayed old
value, then the wrapped displayed new value. -/
def fieldEntry {α : Type} (f : DiffField α) (self old : String → α) : String :=
  f.name ++ " (" ++ fmt_value (f.display (old f.ident)) ++ " to " ++
    fmt_value (f.display (self f.ident)) ++ ")"

/-- Semantics of the `diff` procedure emitted by `create_cache_diff_too`
(cache_diff_derive/src/lib.rs lines 23-59): one comparison per
non-ignored field, in declaration order, pushing an entry when the values
differ.  The parsed `custom` function of the container is not consulted:
the emitted body contains no call to it. -/
def create_cache_diff_too_diff {α : Type} [BEq α] (fields : List (DiffField α))
    (self old : String → α) : List String :=
  (fields.filter fun f => f.ignore.isNone).filterMap fun f =>
    if self f.ident != old f.ident then some (fieldEntry f self old) else none

/-- Runtime meaning of one `ActiveField` consumed by `create_cache_diff`,
with its display path bound to a function. -/
structure RtActiveField (α : Type) where
  name : String
  display_fn : α → String
  field_identifier : String

/-- The string one comparison of `create_cache_diff` pushes. -/
def activeEntry {α : Type} (f : RtActiveField α) (self old : String → α) : String :=
  f.name ++ " (" ++ fmt_value (f.display_fn (old f.field_identifier)) ++ " to " ++
    fmt_value (f.display_fn (self f.field_identifier)) ++ ")"

/-- Semantics of the `diff` procedure emitted by `create_cache_diff`
(cache_diff_derive/src/lib.rs lines 61-107): when a custom function is
configured it is called once as `custom_fn(old, self)` and each returned
string is pushed in order, before the per-field comparisons, which run in
declaration order. -/
def create_cache_diff_diff {α : Type} [BEq α]
    (custom : Option ((String → α) → (String → α) → List String))
    (fields : List (RtActiveField α)) (self old : String → α) : List String :=
  (match custom with
   | some custom_fn => custom_fn old self
   | none => []) ++
  fields.filterMap fun f =>
    if self f.field_identifier != old f.field_identifier then
      some (activeEntry f self old)
    else none

example : create_cache_diff_too_diff
    [(⟨"version", "version", none, fun v => v⟩ : DiffField String)]
    (fun _ => "3.4.0") (fun _ => "3.3.0") = ["version (`3.3.0` to `3.4.0`)"] := by rfl

/-- A filterMap whose function either drops an element or maps it with g
produces an ordered sublist of the map of g. -/
theorem filterMap_guard_sublist {β γ : Type} (l : List β) (p : β → Bool) (g : β → γ) :
    List.Sublist (l.filterMap fun a => if p a then some (g a) else none) (l.map g) := by
  induction l with
  | nil => simp
  | cons a t ih =>
    rw [List.filterMap_cons, List.map_cons]
    by_cases hp : p a = true
    · rw [if_pos hp]
      exact List.Sublist.cons₂ _ ih
    · rw [if_neg hp]
      exact List.Sublist.cons _ ih

/-- Claim C1: the spec and the crate documentation say a configured
type-level custom function is invoked once as custom_fn(previous,
current) with its output prepended to the per-field entries; the derive
entry point generates through `create_cache_diff_too`, which parses the
`custom` attribute but emits no call to it, so the generated diff of the
usage crate's `CustomDiffFn` example contains only the per-field entry,
while the unreachable `create_cache_diff` generator produces the
documented output. -/
theorem c1_custom_hook_not_emitted :
    ParseContainer.from_derive_input
      ⟨"CustomDiffFn", [⟨"custom", some "diff_fn"⟩],
       [⟨"name", .path [⟨"String", false⟩], []⟩]⟩ =
      .ok ⟨"CustomDiffFn", some "diff_fn", [⟨"name", "name", none, "std::convert::identity"⟩]⟩
    ∧ create_cache_diff_too_diff
        [(⟨"name", "name", none, fun v => v⟩ : DiffField String)]
        (fun _ => "Richard") (fun _ => "Schneems") =
        ["name (`Schneems` to `Richard`)"]
    ∧ create_cache_diff_diff
        (some fun old self => ["Totally custom old: " ++ old "name" ++ " now: " ++ self "name"])
        [(⟨"name", fun v => v, "name"⟩ : RtActiveField String)]
        (fun _ => "Richard") (fun _ => "Schneems") =
        ["Totally custom old: Schneems now: Richard", "name (`Schneems` to `Richard`)"] :=
  ⟨rfl, rfl, rfl⟩

/-- Claim C2: a single unannotated string field named version resolves to
the label "version" with the identity display, and the generated diff of
current "3.4.0" against previous "3.3.0" is exactly one entry with both
values backtick-wrapped by the default fmt_value hook. -/
theorem c2_default_single_field_diff :
    ParseField.from_field ⟨"version", .path [⟨"String", false⟩], []⟩ =
      .ok ⟨"version", "version", none, "std::convert::identity"⟩
    ∧ create_cache_diff_too_diff
        [(⟨"version", "version", none, fun v => v⟩ : DiffField String)]
        (fun _ => "3.4.0") (fun _ => "3.3.0") =
        ["version (`3.3.0` to `3.4.0`)"] :=
  ⟨rfl, rfl⟩

/-- Claim C3: generated diff entries appear in field declaration order
with custom-hook output first: `create_cache_diff` prepends the custom
output to the per-field entries, the entries of `create_cache_diff_too`
form an ordered sublist of the declaration-ordered entry list, and the
two-field type with both fields changed produces the version entry before
the distro entry. -/
theorem c3_entry_order {α : Type} [BEq α]
    (custom_fn : (String → α) → (String → α) → List String)
    (activeFields : List (RtActiveField α)) (fields : List (DiffField α))
    (self old : String → α) :
    create_cache_diff_diff (some custom_fn) activeFields self old =
      custom_fn old self ++ create_cache_diff_diff none activeFields self old
    ∧ List.Sublist (create_cache_diff_too_diff fields self old)
        (fields.map fun f => fieldEntry f self old)
    ∧ create_cache_diff_too_diff
        [(⟨"version", "version", none, fun v => v⟩ : DiffField String),
         ⟨"distro", "distro", none, fun v => v⟩]
        (fun k => if k = "version" then "3.4.0" else "Ubuntu")
        (fun k => if k = "version" then "3.3.0" else "Alpine") =
        ["version (`3.3.0` to `3.4.0`)", "distro (`Alpine` to `Ubuntu`)"] := by
  refine ⟨rfl, ?_, by rfl⟩
  exact (filterMap_guard_sublist _ _ _).trans ((List.filter_sublist _).map _)

/-- Witness for c3_entry_order at a concrete type and concrete instances. -/
theorem c3_entry_order_witness :
    create_cache_diff_diff (some fun old self => [old "k" ++ self "k"])
        [(⟨"one", fun v => v, "one"⟩ : RtActiveField String)]
        (fun _ => "b") (fun _ => "a") =
      (fun old self => [old "k" ++ self "k"]) (fun _ => "a") (fun _ => "b") ++
        create_cache_diff_diff none [(⟨"one", fun v => v, "one"⟩ : RtActiveField String)]
          (fun _ => "b") (fun _ => "a")
    ∧ List.Sublist
        (create_cache_diff_too_diff
          [(⟨"one", "one", none, fun v => v⟩ : DiffField String)]
          (fun _ => "b") (fun _ => "a"))
        ([(⟨"one", "one", none, fun v => v⟩ : DiffField String)].map fun f =>
          fieldEntry f (fun _ => "b") (fun _ => "a")) :=
  ⟨(c3_entry_order (fun old self => [old "k" ++ self "k"])
      [⟨"one", fun v => v, "one"⟩] [⟨"one", "one", none, fun v => v⟩]
      (fun _ => "b") (fun _ => "a")).1,
   (c3_entry_order (fun old self => [old "k" ++ self "k"])
      [⟨"one", fun v => v, "one"⟩] [⟨"one", "one", none, fun v => v⟩]
      (fun _ => "b") (fun _ => "a")).2.1⟩

/-- One field-loop step of from_ast only ever appends to the error queue. -/
theorem fromAstStep_fst (ident : String) (cu : Option String)
    (acc : List String × List ActiveField) (f : RawField) :
    ∃ s, (fromAstStep ident cu acc f).1 = acc.1 ++ s := by
  unfold fromAstStep
  cases hpf : ParsedField.from_field f with
  | error e => exact ⟨e, rfl⟩
  | ok pf =>
    cases pf with
    | ignoredCustom => exact ⟨_, rfl⟩
    | ignoredOther => exact ⟨[], by simp⟩
    | active a => exact ⟨[], by simp⟩

/-- The field loop of from_ast only ever appends to the error queue. -/
theorem fromAst_foldl_fst_mono (ident : String) (cu : Option String) :
    ∀ (l : List RawField) (acc : List String × List ActiveField),
      ∃ t, (l.foldl (fromAstStep ident cu) acc).1 = acc.1 ++ t := by
  intro l
  induction l with
  | nil => intro acc; exact ⟨[], by simp⟩
  | cons f t ih =>
    intro acc
    obtain ⟨t1, ht1⟩ := ih (fromAstStep ident cu acc f)
    obtain ⟨s0, hs0⟩ := fromAstStep_fst ident cu acc f
    refine ⟨s0 ++ t1, ?_⟩
    rw [List.foldl_cons, ht1, hs0, List.append_assoc]

/-- A nonempty error queue makes rollupResult fail with the whole queue. -/
theorem rollupResult_error (ident : String) (custom : Option String)
    (res : List String × List ActiveField) (hd : String) (tl : List String)
    (h : res.1 = hd :: tl) :
    rollupResult ident custom res = .error (hd :: tl) := by
  unfold rollupResult
  rw [h]

/-- Counterexample for claim C4: the container resolution used by the
derive entry point stops at the first failing field: with two fields each
carrying an unknown attribute, the reported error holds only the first
field's message. -/
theorem c4_first_error_only_counterexample :
    ParseContainer.from_derive_input
      ⟨"Metadata", [⟨"custom", some "my_function"⟩],
       [⟨"version", .other, [⟨"unknowna", none⟩]⟩,
        ⟨"architecture", .other, [⟨"unknownb", none⟩]⟩]⟩ =
      .error [unknownAttrMsg "unknowna" fieldKnownKeys] := rfl

/-- Claim C4 amended: `CacheDiffContainer::from_ast` collects every
per-field error — any field whose resolution fails contributes its
messages to the aggregated report, and the concrete two-bad-fields type
reports both problems — while the entry-point resolution
(`ParseContainer::from_derive_input`) stops at the first failing field. -/
theorem c4_error_rollup_amended :
    (∀ (c : RawContainer) (f : RawField) (e : List String),
      f ∈ c.fields → ParsedField.from_field f = .error e → e ≠ [] →
      ∃ E p s, CacheDiffContainer.from_ast c = .error E ∧ E = p ++ e ++ s)
    ∧ CacheDiffContainer.from_ast
        ⟨"Metadata", [⟨"custom", some "my_function"⟩],
         [⟨"version", .other, [⟨"unknowna", none⟩]⟩,
          ⟨"architecture", .other, [⟨"unknownb", none⟩]⟩]⟩ =
        .error [unknownAttrMsg "unknowna" fieldKnownKeys,
                unknownAttrMsg "unknownb" fieldKnownKeys] := by
  constructor
  · intro c f e hf he hne
    obtain ⟨l1, l2, hsplit⟩ := List.append_of_mem hf
    obtain ⟨t0, ht0⟩ := fromAst_foldl_fst_mono c.ident (containerAttrState c.attrs).2 l1
      ((containerAttrState c.attrs).1, [])
    obtain ⟨t2, ht2⟩ := fromAst_foldl_fst_mono c.ident (containerAttrState c.attrs).2 l2
      (fromAstStep c.ident (containerAttrState c.attrs).2
        (l1.foldl (fromAstStep c.ident (containerAttrState c.attrs).2)
          ((containerAttrState c.attrs).1, [])) f)
    have hstep : (fromAstStep c.ident (containerAttrState c.attrs).2
        (l1.foldl (fromAstStep c.ident (containerAttrState c.attrs).2)
          ((containerAttrState c.attrs).1, [])) f).1 =
        (l1.foldl (fromAstStep c.ident (containerAttrState c.attrs).2)
          ((containerAttrState c.attrs).1, [])).1 ++ e := by
      unfold fromAstStep
      rw [he]
    have hfold : (c.fields.foldl (fromAstStep c.ident (containerAttrState c.attrs).2)
        ((containerAttrState c.attrs).1, [])).1 =
        (((containerAttrState c.attrs).1 ++ t0) ++ e) ++ t2 := by
      rw [hsplit, List.foldl_append, List.foldl_cons, ht2, hstep, ht0]
    have hne2 : (((containerAttrState c.attrs).1 ++ t0) ++ e) ++ t2 ≠ [] := by
      intro h
      have h1 := List.append_eq_nil.mp h
      exact hne (List.append_eq_nil.mp h1.1).2
    obtain ⟨hd, tl, hE⟩ := List.exists_cons_of_ne_nil hne2
    refine ⟨(((containerAttrState c.attrs).1 ++ t0) ++ e) ++ t2,
      (containerAttrState c.attrs).1 ++ t0, t2, ?_, by rw [List.append_assoc]⟩
    have hres := rollupResult_error c.ident (containerAttrState c.attrs).2
      (c.fields.foldl (fromAstStep c.ident (containerAttrState c.attrs).2)
        ((containerAttrState c.attrs).1, [])) hd tl (by rw [hfold, hE])
    calc CacheDiffContainer.from_ast c
        = Except.error (hd :: tl) := hres
      _ = Except.error ((((containerAttrState c.attrs).1 ++ t0) ++ e) ++ t2) := by rw [← hE]
  · rfl

/-- Witness for c4_error_rollup_amended at a concrete one-bad-field type. -/
theorem c4_error_rollup_witness :
    ((⟨"version", .other, [⟨"unknowna", none⟩]⟩ : RawField) ∈
        (⟨"Metadata", [], [⟨"version", .other, [⟨"unknowna", none⟩]⟩]⟩ : RawContainer).fields
      ∧ ParsedField.from_field ⟨"version", .other, [⟨"unknowna", none⟩]⟩ =
          .error [unknownAttrMsg "unknowna" fieldKnownKeys]
      ∧ ([unknownAttrMsg "unknowna" fieldKnownKeys] : List String) ≠ [])
    ∧ ∃ E p s,
        CacheDiffContainer.from_ast
          ⟨"Metadata", [], [⟨"version", .other, [⟨"unknowna", none⟩]⟩]⟩ =
          .error E ∧ E = p ++ [unknownAttrMsg "unknowna" fieldKnownKeys] ++ s :=
  ⟨⟨List.mem_singleton.mpr rfl, rfl, List.cons_ne_nil _ _⟩,
   c4_error_rollup_amended.1 _ _ _ (List.mem_singleton.mpr rfl) rfl (List.cons_ne_nil _ _)⟩

/-- Counterexample for claim C5: the container resolution used by the
derive entry point accepts two type-level `custom` annotations and
silently keeps the last one. -/
theorem c5_last_custom_wins_counterexample :
    ParseContainer.from_derive_input
      ⟨"Metadata", [⟨"custom", some "function_a"⟩, ⟨"custom", some "function_b"⟩],
       [⟨"version", .other, []⟩]⟩ =
      .ok ⟨"Metadata", some "function_b",
           [⟨"version", "version", none, "std::convert::identity"⟩]⟩ := rfl

/-- Claim C5 amended: `CacheDiffContainer::from_ast` rejects a repeated
type-level `custom` with the linked duplicate-attribute pair of messages,
whereas the entry-point resolution (`ParseContainer::from_derive_input`)
accepts the duplicate and keeps the last occurrence. -/
theorem c5_duplicate_custom_amended (ident a b : String) :
    CacheDiffContainer.from_ast
      ⟨ident, [⟨"custom", some a⟩, ⟨"custom", some b⟩], [⟨"version", .other, []⟩]⟩ =
      .error [dupMsg "custom", prevMsg "custom"]
    ∧ ParseContainer.from_derive_input
      ⟨ident, [⟨"custom", some a⟩, ⟨"custom", some b⟩], [⟨"version", .other, []⟩]⟩ =
      .ok ⟨ident, some b, [⟨"version", "version", none, "std::convert::identity"⟩]⟩ :=
  ⟨rfl, rfl⟩

/-- Witness for c5_duplicate_custom_amended at concrete names. -/
theorem c5_duplicate_custom_witness :
    CacheDiffContainer.from_ast
      ⟨"Metadata", [⟨"custom", some "function_a"⟩, ⟨"custom", some "function_b"⟩],
       [⟨"version", .other, []⟩]⟩ =
      .error [dupMsg "custom", prevMsg "custom"] :=
  (c5_duplicate_custom_amended "Metadata" "function_a" "function_b").1

/-- Counterexample for claim C6: the field resolution used by the derive
entry point (`ParseField::from_field`) accepts `ignore` together with
`rename` instead of failing with the conflicting-attributes error. -/
theorem c6_live_accepts_counterexample :
    ParseField.from_field
      ⟨"version", .other, [⟨"rename", some "Ruby version"⟩, ⟨"ignore", none⟩]⟩ =
      .ok ⟨"version", "Ruby version", some "default", "std::convert::identity"⟩ := rfl

/-- Claim C6 amended: `ParsedField::from_field` of cache_diff_field.rs
rejects `ignore` together with `rename` or `display` with exactly the
claimed message, for every field whose attribute lookup yields an ignore
entry next to a rename or display entry; the field resolution used by the
derive entry point accepts the combination. -/
theorem c6_conflicting_attributes_amended :
    (∀ (f : RawField) (l : DFieldLookup),
      dFieldAttributeLookup f.attrs = .ok l →
      l.ignore.isSome = true →
      (l.display.isSome || l.rename.isSome) = true →
      ParsedField.from_field f = .error [conflictMsg])
    ∧ ParsedField.from_field
        ⟨"version", .other, [⟨"rename", some "Ruby version"⟩, ⟨"ignore", none⟩]⟩ =
        .error [conflictMsg]
    ∧ conflictMsg =
      "The cache_diff attribute `ignore` renders other attributes useless, remove additional attributes" := by
  refine ⟨?_, rfl, rfl⟩
  intro f l h hig hrd
  unfold ParsedField.from_field
  rw [h]
  obtain ⟨ig, hi⟩ := Option.isSome_iff_exists.mp hig
  simp [hi, hrd]

/-- Witness for c6_conflicting_attributes_amended at the display-ignore
combination of the cache_diff_field.rs tests. -/
theorem c6_conflicting_attributes_witness :
    (dFieldAttributeLookup
        [⟨"display", some "my_function"⟩, ⟨"ignore", some "reasons"⟩] =
        .ok ⟨none, some "my_function", some .ignoreOther⟩
      ∧ (some Ignored.ignoreOther).isSome = true
      ∧ ((some "my_function").isSome || (none : Option String).isSome) = true)
    ∧ ParsedField.from_field
        ⟨"version", .other, [⟨"display", some "my_function"⟩, ⟨"ignore", some "reasons"⟩]⟩ =
        .error [conflictMsg] :=
  ⟨⟨rfl, rfl, rfl⟩,
   c6_conflicting_attributes_amended.1
     ⟨"version", .other, [⟨"display", some "my_function"⟩, ⟨"ignore", some "reasons"⟩]⟩
     ⟨none, some "my_function", some .ignoreOther⟩ rfl rfl rfl⟩

/-- Counterexample for claim C7: the unknown-key message lists the valid
field-scope keys in declaration order — rename, display, ignore — which
is not the sorted order the claim requires, and the keys are wrapped in
backticks rather than single quotes. -/
theorem c7_unsorted_counterexample :
    parseFieldAttr ⟨"zzz", none⟩ =
      .error ["Unknown cache_diff attribute: `zzz`. Must be one of `rename`, `display`, `ignore`"]
    ∧ "Unknown cache_diff attribute: `zzz`. Must be one of `rename`, `display`, `ignore`" ≠
      "Unknown cache_diff attribute: `zzz`. Must be one of `display`, `ignore`, `rename`"
    ∧ "Unknown cache_diff attribute: `zzz`. Must be one of `rename`, `display`, `ignore`" ≠
      "Unknown cache_diff attribute: \x27zzz\x27. Must be one of \x27display\x27, \x27ignore\x27, \x27rename\x27" :=
  ⟨rfl, by decide, by decide⟩

/-- Claim C7 amended: every unrecognized key fails with a message naming
all valid keys of its scope, backtick-quoted, in the fixed declaration
order of the attribute enum (not alphabetically sorted), with the
struct-scope hint combined when the unknown field-scope key is custom. -/
theorem c7_unknown_key_amended :
    (∀ (k : String) (v : Option String),
      k ≠ "rename" → k ≠ "display" → k ≠ "ignore" →
      parseFieldAttr ⟨k, v⟩ =
        .error ([unknownAttrMsg k fieldKnownKeys] ++
          (if k = "custom" then [customHintMsg] else [])))
    ∧ (∀ (k : String) (v : Option String),
      k ≠ "custom" →
      parseContainerAttr ⟨k, v⟩ = .error [unknownAttrMsg k containerKnownKeys])
    ∧ fieldKnownKeys = ["rename", "display", "ignore"]
    ∧ containerKnownKeys = ["custom"]
    ∧ unknownAttrMsg "zzz" fieldKnownKeys =
      "Unknown cache_diff attribute: `zzz`. Must be one of `rename`, `display`, `ignore`" := by
  refine ⟨?_, ?_, rfl, rfl, rfl⟩
  · intro k v h1 h2 h3
    simp [parseFieldAttr, h1, h2, h3]
  · intro k v h
    simp [parseContainerAttr, h]

/-- Witness for c7_unknown_key_amended at the unknown key zzz. -/
theorem c7_unknown_key_witness :
    (("zzz" : String) ≠ "rename" ∧ ("zzz" : String) ≠ "display"
      ∧ ("zzz" : String) ≠ "ignore" ∧ ("zzz" : String) ≠ "custom")
    ∧ parseFieldAttr ⟨"zzz", none⟩ =
        .error ([unknownAttrMsg "zzz" fieldKnownKeys] ++
          (if ("zzz" : String) = "custom" then [customHintMsg] else []))
    ∧ parseContainerAttr ⟨"zzz", none⟩ =
        .error [unknownAttrMsg "zzz" containerKnownKeys] :=
  ⟨⟨by decide, by decide, by decide, by decide⟩,
   c7_unknown_key_amended.1 "zzz" none (by decide) (by decide) (by decide),
   c7_unknown_key_amended.2.1 "zzz" none (by decide)⟩

/-- Counterexample for claim C8: for the type whose only field is marked
`ignore = "custom"` the missing-hook error is raised as claimed, but
adding the type-level `custom` annotation does not make the type resolve:
it then fails the comparable-fields guard, so "adding custom = f makes
the same type resolve successfully" is false for this type. -/
theorem c8_all_ignored_counterexample :
    ParseContainer.from_derive_input
      ⟨"Metadata", [], [⟨"version", .other, [⟨"ignore", some "custom"⟩]⟩]⟩ =
      .error [missingCustomMsg "version" "Metadata"]
    ∧ ParseContainer.from_derive_input
      ⟨"Metadata", [⟨"custom", some "my_function"⟩],
       [⟨"version", .other, [⟨"ignore", some "custom"⟩]⟩]⟩ =
      .error [noFieldsMsgLive] :=
  ⟨rfl, rfl⟩

/-- Claim C8 amended: with an ignored-as-custom field and no type-level
custom function, resolution fails with the missing-custom-hook error
naming the first such field and the type; adding the custom function
makes the type resolve provided at least one field stays active, as the
concrete two-field MissingCustom type of the test suite shows. -/
theorem c8_missing_custom_amended :
    (∀ (ident : String) (fields : List ParseField) (f : ParseField),
      (fields.find? fun fl => fl.ignore == some "custom") = some f →
      containerChecks ident none fields = .error [missingCustomMsg f.ident ident])
    ∧ (∀ (ident fn : String) (fields : List ParseField),
      (fields.any fun fl => fl.ignore.isNone) = true →
      containerChecks ident (some fn) fields = .ok ⟨ident, some fn, fields⟩)
    ∧ ParseContainer.from_derive_input
        ⟨"MissingCustom", [],
         [⟨"i_am_a_custom_field", .other, [⟨"ignore", some "custom"⟩]⟩,
          ⟨"normal", .other, []⟩]⟩ =
        .error [missingCustomMsg "i_am_a_custom_field" "MissingCustom"]
    ∧ ParseContainer.from_derive_input
        ⟨"MissingCustom", [⟨"custom", some "custom_diff"⟩],
         [⟨"i_am_a_custom_field", .other, [⟨"ignore", some "custom"⟩]⟩,
          ⟨"normal", .other, []⟩]⟩ =
        .ok ⟨"MissingCustom", some "custom_diff",
             [⟨"i_am_a_custom_field", "i am a custom field", some "custom",
               "std::convert::identity"⟩,
              ⟨"normal", "normal", none, "std::convert::identity"⟩]⟩ := by
  refine ⟨?_, ?_, rfl, rfl⟩
  · intro ident fields f hfind
    simp [containerChecks, hfind]
  · intro ident fn fields hany
    unfold containerChecks
    cases hfind : fields.find? fun fl => fl.ignore == some "custom" with
    | some f => simp [activeFieldsCheck, hany]
    | none => simp [activeFieldsCheck, hany]

/-- Witness for c8_missing_custom_amended at concrete field lists. -/
theorem c8_missing_custom_witness :
    ((([⟨"x", "x", some "custom", "d"⟩] : List ParseField).find? fun fl =>
        fl.ignore == some "custom") = some ⟨"x", "x", some "custom", "d"⟩
      ∧ (([⟨"version", "version", none, "d"⟩] : List ParseField).any fun fl =>
          fl.ignore.isNone) = true)
    ∧ containerChecks "T" none [⟨"x", "x", some "custom", "d"⟩] =
        .error [missingCustomMsg "x" "T"]
    ∧ containerChecks "T" (some "f") [⟨"version", "version", none, "d"⟩] =
        .ok ⟨"T", some "f", [⟨"version", "version", none, "d"⟩]⟩ :=
  ⟨⟨rfl, rfl⟩,
   c8_missing_custom_amended.1 "T" [⟨"x", "x", some "custom", "d"⟩]
     ⟨"x", "x", some "custom", "d"⟩ rfl,
   c8_missing_custom_amended.2.1 "T" "f" [⟨"version", "version", none, "d"⟩] rfl⟩

/-- Counterexample for claim C9: the no-comparable-fields message of the
entry-point resolution does not name the type — the word struct is
literal text and there is no trailing -d — so the claim's format,
instantiated at the type Metadata, does not match the actual message. -/
theorem c9_message_counterexample :
    ParseContainer.from_derive_input ⟨"Metadata", [], []⟩ = .error [noFieldsMsgLive]
    ∧ noFieldsMsgLive ≠
      "No fields to compare for CacheDiff, ensure Metadata has at least one named field that isn\x27t \x27cache_diff(ignore)\x27-d"
    ∧ noFieldsMsgLive ≠
      "No fields to compare for CacheDiff, ensure Metadata has at least one named field that isn\x27t `cache_diff(ignore)`-d" :=
  ⟨rfl, by decide, by decide⟩

/-- Claim C9 amended: whenever no field is active — zero fields or all
ignored — and the missing-custom-hook check does not fire first, the
entry-point resolution fails with its fixed no-comparable-fields message,
whose text names the macro but not the type and ends without -d;
`CacheDiffContainer::from_ast` emits the same message with -d appended. -/
theorem c9_no_comparable_fields_amended :
    (∀ (ident : String) (custom : Option String) (fields : List ParseField),
      (∀ f ∈ fields, f.ignore.isSome = true) →
      (custom.isSome = true ∨ ∀ f ∈ fields, f.ignore ≠ some "custom") →
      containerChecks ident custom fields = .error [noFieldsMsgLive])
    ∧ CacheDiffContainer.from_ast ⟨"Metadata", [], []⟩ = .error [noFieldsMsgD]
    ∧ noFieldsMsgD = noFieldsMsgLive ++ "-d"
    ∧ noFieldsMsgLive =
      "No fields to compare for CacheDiff, ensure struct has at least one named field that isn\x27t `cache_diff(ignore)`" := by
  refine ⟨?_, rfl, rfl, rfl⟩
  intro ident custom fields hall hc
  have hany : (fields.any fun f => f.ignore.isNone) = false := by
    rw [List.any_eq_false]
    intro f hf
    have h := hall f hf
    cases hfi : f.ignore with
    | none => rw [hfi] at h; simp at h
    | some v => simp [hfi]
  have hcheck : activeFieldsCheck ident custom fields = .error [noFieldsMsgLive] := by
    simp [activeFieldsCheck, hany]
  cases custom with
  | some c =>
    unfold containerChecks
    cases hfind : fields.find? fun f => f.ignore == some "custom" with
    | some f => simpa [hfind] using hcheck
    | none => simpa [hfind] using hcheck
  | none =>
    cases hc with
    | inl h => simp at h
    | inr h =>
      have hfind : (fields.find? fun f => f.ignore == some "custom") = none := by
        rw [List.find?_eq_none]
        intro f hf
        simpa using h f hf
      unfold containerChecks
      simpa [hfind] using hcheck

/-- Witness for c9_no_comparable_fields_amended at a one-ignored-field
type without a custom function. -/
theorem c9_no_comparable_fields_witness :
    ((∀ f ∈ ([⟨"version", "version", some "default", "d"⟩] : List ParseField),
        f.ignore.isSome = true)
      ∧ ∀ f ∈ ([⟨"version", "version", some "default", "d"⟩] : List ParseField),
          f.ignore ≠ some "custom")
    ∧ containerChecks "Metadata" none [⟨"version", "version", some "default", "d"⟩] =
        .error [noFieldsMsgLive] := by
  refine ⟨⟨by decide, by decide⟩, ?_⟩
  exact c9_no_comparable_fields_amended.1 "Metadata" none
    [⟨"version", "version", some "default", "d"⟩] (by decide) (Or.inr (by decide))

/-- Claim C10: when a field has no display annotation the path display
default is chosen exactly when the declared type's last path segment is
the identifier PathBuf with no generic arguments, whatever the preceding
segments: my_crate::PathBuf also receives the path display, while a
PathBuf with generic arguments and every other type receive the identity
conversion. -/
theorem c10_pathbuf_default (f : RawField) (l : FieldLookup)
    (h : fieldAttributeLookup f.attrs = .ok l) (hd : l.display = none) :
    (∃ pf, ParseField.from_field f = .ok pf
      ∧ (pf.display = "std::path::Path::display" ↔ is_pathbuf f.ty = true)
      ∧ (is_pathbuf f.ty = false → pf.display = "std::convert::identity"))
    ∧ (∀ (segments : List PathSegment) (s : PathSegment),
        segments.getLast? = some s →
        is_pathbuf (.path segments) = (s.seg == "PathBuf" && !s.hasArguments))
    ∧ is_pathbuf (.path [⟨"my_crate", false⟩, ⟨"PathBuf", false⟩]) = true
    ∧ is_pathbuf (.path [⟨"PathBuf", true⟩]) = false
    ∧ is_pathbuf (.path [⟨"std", false⟩, ⟨"path", false⟩, ⟨"PathBuf", false⟩]) = true
    ∧ is_pathbuf .other = false := by
  refine ⟨?_, ?_, rfl, rfl, rfl, rfl⟩
  · refine ⟨⟨f.ident, l.rename.getD (underscoresToSpaces f.ident), l.ignore,
      defaultDisplay f.ty⟩, ?_, ?_, ?_⟩
    · unfold ParseField.from_field
      rw [h]
      simp [hd]
    · unfold defaultDisplay
      cases hpb : is_pathbuf f.ty with
      | true => simp
      | false => simp
    · intro hpb
      simp [defaultDisplay, hpb]
  · intro segments s hs
    simp [is_pathbuf, hs]

/-- Witness for c10_pathbuf_default at an unannotated PathBuf field. -/
theorem c10_pathbuf_default_witness :
    (fieldAttributeLookup ([] : List RawAttr) = .ok ⟨none, none, none⟩
      ∧ (⟨none, none, none⟩ : FieldLookup).display = none)
    ∧ ∃ pf, ParseField.from_field ⟨"path", .path [⟨"PathBuf", false⟩], []⟩ = .ok pf
        ∧ (pf.display = "std::path::Path::display" ↔
            is_pathbuf (.path [⟨"PathBuf", false⟩]) = true)
        ∧ (is_pathbuf (SynType.path [⟨"PathBuf", false⟩]) = false →
            pf.display = "std::convert::identity") :=
  ⟨⟨rfl, rfl⟩,
   (c10_pathbuf_default ⟨"path", .path [⟨"PathBuf", false⟩], []⟩ ⟨none, none, none⟩
     rfl rfl).1⟩
